import Mathlib

/-!
Shallow embedding of the CustomerReviewMCP App Store Connect server
(src/index.ts). The server exposes MCP tools; for each tool call it
mints a signed JWT, shapes an HTTP request against the App Store
Connect REST API, and relays the response. We model the token
issuance (`generateToken`), the tool registry (`toolRegistry`), and
the CallTool dispatch switch (`dispatchTool` / `handleCall`) as pure
functions over an explicit argument map and an abstract transport
outcome, recording the issued tokens and attempted HTTP requests.
-/

/-- JSON values as produced by the JavaScript runtime: the parsed form of
request and response bodies. Numbers are restricted to integers, which
covers every value the program constructs or that the claims exercise. -/
inductive Json where
  | null
  | bool (b : Bool)
  | num (n : Int)
  | str (s : String)
  | arr (elems : List Json)
  | obj (fields : List (String × Json))
deriving Repr

/-- Lower-case hexadecimal digit, used by the `\u00XX` escape of
`JSON.stringify` for control characters. -/
def hexDigit (n : Nat) : Char :=
  if n < 10 then Char.ofNat (48 + n) else Char.ofNat (87 + n)

/-- Character escaping of `JSON.stringify` for string values. -/
def escapeJsonChar (c : Char) : String :=
  if c = '"' then "\\\""
  else if c = '\\' then "\\\\"
  else if c = '\x08' then "\\b"
  else if c = '\x09' then "\\t"
  else if c = '\x0a' then "\\n"
  else if c = '\x0c' then "\\f"
  else if c = '\x0d' then "\\r"
  else if c.toNat < 32 then
    "\\u00" ++ String.singleton (hexDigit (c.toNat / 16)) ++
      String.singleton (hexDigit (c.toNat % 16))
  else String.singleton c

/-- A JSON string literal as `JSON.stringify` renders it. -/
def quoteJson (s : String) : String :=
  "\"" ++ String.join (s.data.map escapeJsonChar) ++ "\""

mutual

/-- `JSON.stringify(v)` with no indent argument: the compact JSON text of a
value, with no whitespace. This is the canonical serialization a JSON
producer (such as the upstream API) emits for the value. -/
def stringifyCompact : Json → String
  | .null => "null"
  | .bool true => "true"
  | .bool false => "false"
  | .num n => toString n
  | .str s => quoteJson s
  | .arr l => "[" ++ String.intercalate "," (stringifyCompactList l) ++ "]"
  | .obj fs => "\x7b" ++ String.intercalate "," (stringifyCompactFields fs) ++ "\x7d"

def stringifyCompactList : List Json → List String
  | [] => []
  | x :: xs => stringifyCompact x :: stringifyCompactList xs

def stringifyCompactFields : List (String × Json) → List String
  | [] => []
  | (k, v) :: fs => (quoteJson k ++ ":" ++ stringifyCompact v) :: stringifyCompactFields fs

end

/-- Indentation of `JSON.stringify(v, null, 2)`: two spaces per level. -/
def pad (lvl : Nat) : String :=
  String.join (List.replicate (2 * lvl) " ")

mutual

/-- `JSON.stringify(v, null, 2)` at nesting level `lvl`: pretty-printed JSON
with two-space indentation, each array element and object member on its own
line, and `": "` between an object key and its value. -/
def stringifyPretty (lvl : Nat) : Json → String
  | .null => "null"
  | .bool true => "true"
  | .bool false => "false"
  | .num n => toString n
  | .str s => quoteJson s
  | .arr [] => "[]"
  | .arr (x :: xs) =>
    "[\n" ++ String.intercalate ",\n" (prettyItems (lvl + 1) (x :: xs)) ++
      "\n" ++ pad lvl ++ "]"
  | .obj [] => "\x7b\x7d"
  | .obj (f :: fs) =>
    "\x7b\n" ++ String.intercalate ",\n" (prettyFields (lvl + 1) (f :: fs)) ++
      "\n" ++ pad lvl ++ "\x7d"

def prettyItems (lvl : Nat) : List Json → List String
  | [] => []
  | x :: xs => (pad lvl ++ stringifyPretty lvl x) :: prettyItems lvl xs

def prettyFields (lvl : Nat) : List (String × Json) → List String
  | [] => []
  | (k, v) :: fs =>
    (pad lvl ++ quoteJson k ++ ": " ++ stringifyPretty lvl v) :: prettyFields lvl fs

end

/-- `JSON.stringify(v, null, 2)`: the serialization every successful tool
result text goes through in the handler (src/index.ts uses this on
`response.data` for every tool except the delete tool). -/
def jsonStringify2 (v : Json) : String :=
  stringifyPretty 0 v

/-- A JavaScript argument value, as found in `request.params.arguments`.
The handler reads arguments through TypeScript cast destructuring; we model
the shapes it reads: strings, numbers, booleans, arrays of strings, and a
nested object (the `filter` argument of list_users). -/
inductive JsArg where
  | str (s : String)
  | num (n : Int)
  | bool (b : Bool)
  | strList (l : List String)
  | obj (fields : List (String × JsArg))
deriving Repr

/-- An arguments object: property names mapped to values. `none` for a
property that is absent (undefined). -/
def jsLookup (a : List (String × JsArg)) (k : String) : Option JsArg :=
  (a.find? (fun p => p.1 == k)).map (fun p => p.2)

/-- Read a string-typed property, as the destructured `appId`, `reviewId`,
etc. An absent property is `none` (undefined in JavaScript). -/
def getStr (a : List (String × JsArg)) (k : String) : Option String :=
  match jsLookup a k with
  | some (.str s) => some s
  | _ => none

/-- Read a number-typed property (the `limit` argument). -/
def getNum (a : List (String × JsArg)) (k : String) : Option Int :=
  match jsLookup a k with
  | some (.num n) => some n
  | _ => none

/-- Read a boolean-typed property (`existsPublishedResponse`). -/
def getBool (a : List (String × JsArg)) (k : String) : Option Bool :=
  match jsLookup a k with
  | some (.bool b) => some b
  | _ => none

/-- Read a string-array property (`include`, `sort`, `filterTerritory`, ...). -/
def getStrList (a : List (String × JsArg)) (k : String) : Option (List String) :=
  match jsLookup a k with
  | some (.strList l) => some l
  | _ => none

/-- Read a nested-object property (the `filter` argument of list_users). -/
def getObj (a : List (String × JsArg)) (k : String) : Option (List (String × JsArg)) :=
  match jsLookup a k with
  | some (.obj fs) => some fs
  | _ => none

/-- JavaScript falsiness of a possibly-absent string: `!x` is true exactly
when `x` is undefined or the empty string. This is the check the handler
performs on every required argument, e.g. `if (!appId)`. -/
def strFalsy (x : Option String) : Bool :=
  match x with
  | none => true
  | some s => s == ""

/-- JavaScript `x || d` for a possibly-absent number: undefined and `0` are
falsy and give the default. Models `request.params.arguments?.limit || 100`. -/
def jsOrNum (x : Option Int) (d : Int) : Int :=
  match x with
  | none => d
  | some n => if n = 0 then d else n

/-- Configuration loaded from the three environment variables at startup. -/
structure AppStoreConnectConfig where
  keyId : String
  issuerId : String
  privateKeyPath : String
deriving DecidableEq, Repr

/-- The observable content of the JWT built by `jwt.sign` in
`generateToken`: signing algorithm, registered claims, issuance and expiry
times, and the private-key material the signature was produced with. -/
structure JwtToken where
  algorithm : String
  audience : String
  keyid : String
  issuer : String
  issuedAt : Nat
  expiresAt : Nat
  signingKey : String
deriving DecidableEq, Repr

/-- `generateToken` of src/index.ts: reads the private key from the
configured path (a fresh `fs.readFile` on every call, modelled by the
per-call `readFile` function), then signs an empty payload with
algorithm ES256, `expiresIn: 20m`, audience `appstoreconnect-v1`, and the
configured key id and issuer id. `now` is the issuance time in seconds. -/
def generateToken (config : AppStoreConnectConfig) (readFile : String → String)
    (now : Nat) : JwtToken :=
  let privateKey := readFile config.privateKeyPath
  { algorithm := "ES256"
    audience := "appstoreconnect-v1"
    keyid := config.keyId
    issuer := config.issuerId
    issuedAt := now
    expiresAt := now + 20 * 60
    signingKey := privateKey }

/-- A query-parameter value: axios params hold strings, numbers or
booleans here. -/
inductive QVal where
  | s (v : String)
  | n (v : Int)
  | b (v : Bool)
deriving DecidableEq, Repr

/-- HTTP method used by the dispatch switch. -/
inductive Method where
  | get
  | post
  | delete
deriving DecidableEq, Repr

/-- An outgoing HTTP request as handed to axios: method, path relative to
the fixed base URL, query parameters in insertion order, the
Authorization header, and an optional JSON body (POST only). -/
structure HttpRequest where
  method : Method
  path : String
  params : List (String × QVal)
  auth : String
  body : Option Json
deriving Repr

/-- MCP error codes used by the handler (`ErrorCode` of the MCP SDK). -/
inductive ErrCode where
  | invalidParams
  | methodNotFound
  | internalError
deriving DecidableEq, Repr

/-- How a tool call can fail: a thrown `McpError` (code and message), or a
JavaScript TypeError, which the handler raises when it destructures an
absent arguments object (`const { appId } = undefined` throws). -/
inductive Failure where
  | mcp (code : ErrCode) (message : String)
  | jsTypeError
deriving Repr

/-- The outcome of the single axios call a dispatch performs: success with
the parsed JSON response body, or an axios error carrying the parsed error
response body (if any) and the transport error message. -/
inductive AxiosOutcome where
  | success (data : Json)
  | failure (respData : Option Json) (message : String)
deriving Repr

/-- The observable trace of one CallTool invocation: the tokens issued (and
hence private-key file reads performed), the HTTP requests attempted, and
the result text or failure. -/
structure CallTrace where
  issuedTokens : List JwtToken
  requests : List HttpRequest
  result : Except Failure String
deriving Repr

/-- Property access on a JSON object (`x?.k`): `none` when the value is not
an object or lacks the property. -/
def jsGet (j : Json) (k : String) : Option Json :=
  match j with
  | .obj fs => (fs.find? (fun p => p.1 == k)).map (fun p => p.2)
  | _ => none

mutual

/-- JavaScript template-literal interpolation of a value, as in the
error-message construction of the catch block. Strings interpolate as
themselves, numbers and booleans via toString, arrays join their elements
with commas (null elements become empty), plain objects give the fixed
`[object Object]` text. -/
def jsTemplate : Json → String
  | .null => "null"
  | .bool true => "true"
  | .bool false => "false"
  | .num n => toString n
  | .str s => s
  | .arr l => String.intercalate "," (jsTemplateItems l)
  | .obj _ => "[object Object]"

def jsTemplateItems : List Json → List String
  | [] => []
  | .null :: xs => "" :: jsTemplateItems xs
  | x :: xs => jsTemplate x :: jsTemplateItems xs

end

/-- The catch-block detail extraction of src/index.ts:
`error.response?.data?.errors?.[0]?.detail ?? error.message`. The first
structured error detail is used when the response body carries one
(non-null); otherwise the transport error message. -/
def extractDetail (respData : Option Json) (message : String) : String :=
  match respData with
  | none => message
  | some d =>
    match jsGet d "errors" with
    | some (.arr (e :: _)) =>
      match jsGet e "detail" with
      | none => message
      | some .null => message
      | some v => jsTemplate v
    | _ => message

/-- Comma join of a list argument (`xs.join(",")` in the source). -/
def joinComma (l : List String) : String :=
  String.intercalate "," l

/-- `if (o?.length) params[k] = o.join(",")`: emit a comma-joined query
parameter only for a present, non-empty array argument. -/
def listParamIf (k : String) (o : Option (List String)) : List (String × QVal) :=
  match o with
  | some l => if l.isEmpty then [] else [(k, QVal.s (joinComma l))]
  | none => []

/-- `if (typeof x === "boolean") params[k] = x`: boolean passthrough of the
existsPublishedResponse argument. -/
def boolParamIf (k : String) (o : Option Bool) : List (String × QVal) :=
  match o with
  | some b => [(k, QVal.b b)]
  | none => []

/-- `if (typeof limit === "number") params["limit"] = Math.min(Number(limit), 200)`. -/
def limitParamIf (o : Option Int) : List (String × QVal) :=
  match o with
  | some nl => [("limit", QVal.n (min nl 200))]
  | none => []

/-- The query-parameter block shared verbatim by list_customer_reviews and
list_customer_reviews_for_version, in the insertion order of the source. -/
def reviewQueryParams (a : List (String × JsArg)) : List (String × QVal) :=
  listParamIf "filter[territory]" (getStrList a "filterTerritory") ++
  listParamIf "filter[rating]" (getStrList a "filterRating") ++
  boolParamIf "exists[publishedResponse]" (getBool a "existsPublishedResponse") ++
  listParamIf "sort" (getStrList a "sort") ++
  listParamIf "fields[customerReviews]" (getStrList a "fieldsCustomerReviews") ++
  listParamIf "fields[customerReviewResponses]" (getStrList a "fieldsCustomerReviewResponses") ++
  limitParamIf (getNum a "limit") ++
  listParamIf "include" (getStrList a "include")

/-- `if (x) params[k] = x` for a string argument: emitted only when present
and non-empty (truthy). Used for `sort` and `filter[username]` of
list_users. -/
def strParamIf (k : String) (o : Option String) : List (String × QVal) :=
  match o with
  | some s => if s == "" then [] else [(k, QVal.s s)]
  | none => []

/-- The `if (filter) { ... }` block of list_users: username, roles, and
visibleApps sub-filters, each emitted only when truthy. -/
def userFilterParams (o : Option (List (String × JsArg))) : List (String × QVal) :=
  match o with
  | some f =>
    strParamIf "filter[username]" (getStr f "username") ++
    listParamIf "filter[roles]" (getStrList f "roles") ++
    listParamIf "filter[visibleApps]" (getStrList f "visibleApps")
  | none => []

/-- The query parameters of list_users: limit always present (destructuring
default 100, then `Math.min(Number(limit), 200)`), then sort if truthy,
the filter sub-fields if truthy, and include if a non-empty array. -/
def listUsersParams (a : List (String × JsArg)) : List (String × QVal) :=
  let lim : Int := match getNum a "limit" with
    | none => 100
    | some nl => nl
  [("limit", QVal.n (min lim 200))] ++
  strParamIf "sort" (getStr a "sort") ++
  userFilterParams (getObj a "filter") ++
  listParamIf "include" (getStrList a "include")

/-- Perform one axios call whose successful response body is relayed as
`JSON.stringify(response.data, null, 2)`; an axios failure is wrapped by
the catch block into `McpError(ErrorCode.InternalError, ...)` with the
extracted detail. Returns the attempted requests and the result. -/
def performJson (m : Method) (path : String) (params : List (String × QVal))
    (body : Option Json) (token : String) (net : AxiosOutcome) :
    List HttpRequest × Except Failure String :=
  let req : HttpRequest :=
    { method := m, path := path, params := params
      auth := "Bearer " ++ token, body := body }
  match net with
  | .success v => ([req], .ok (jsonStringify2 v))
  | .failure d msg =>
    ([req], .error (.mcp .internalError
      ("App Store Connect API error: " ++ extractDetail d msg)))

/-- The CallTool switch of src/index.ts, given the already-generated bearer
token: one case per tool name, with the validation, path construction, and
query-parameter shaping of the source, and an `Unknown tool` MethodNotFound
for the default case. `args` is `request.params.arguments`, `none` when the
client sent no arguments object; the cases that destructure it
(`const { appId, ... } = request.params.arguments as ...`) throw a
TypeError when it is absent. -/
def dispatchTool (name : String) (args : Option (List (String × JsArg)))
    (token : String) (net : AxiosOutcome) :
    List HttpRequest × Except Failure String :=
  match name with
  | "list_apps" =>
    performJson .get "/apps"
      [("limit", QVal.n (jsOrNum (args.bind (fun a => getNum a "limit")) 100))]
      none token net
  | "list_beta_groups" =>
    performJson .get "/betaGroups"
      [("limit", QVal.n (jsOrNum (args.bind (fun a => getNum a "limit")) 100)),
       ("include", QVal.s "app,betaTesters")]
      none token net
  | "get_app_info" =>
    match args with
    | none => ([], .error .jsTypeError)
    | some a =>
      if strFalsy (getStr a "appId") then
        ([], .error (.mcp .invalidParams "appId is required"))
      else
        let appId := (getStr a "appId").getD ""
        let ps := match getStrList a "include" with
          | some l => [("include", QVal.s (joinComma l))]
          | none => []
        performJson .get ("/apps/" ++ appId) ps none token net
  | "list_users" =>
    let a := args.getD []
    performJson .get "/users" (listUsersParams a) none token net
  | "list_customer_reviews" =>
    match args with
    | none => ([], .error .jsTypeError)
    | some a =>
      if strFalsy (getStr a "appId") then
        ([], .error (.mcp .invalidParams "appId is required"))
      else
        let appId := (getStr a "appId").getD ""
        performJson .get ("/apps/" ++ appId ++ "/customerReviews")
          (reviewQueryParams a) none token net
  | "list_customer_reviews_for_version" =>
    match args with
    | none => ([], .error .jsTypeError)
    | some a =>
      if strFalsy (getStr a "versionId") then
        ([], .error (.mcp .invalidParams "versionId is required"))
      else
        let versionId := (getStr a "versionId").getD ""
        performJson .get ("/appStoreVersions/" ++ versionId ++ "/customerReviews")
          (reviewQueryParams a) none token net
  | "create_customer_review_response" =>
    match args with
    | none => ([], .error .jsTypeError)
    | some a =>
      if strFalsy (getStr a "reviewId") || strFalsy (getStr a "responseBody") then
        ([], .error (.mcp .invalidParams "reviewId and responseBody are required"))
      else
        let reviewId := (getStr a "reviewId").getD ""
        let responseBody := (getStr a "responseBody").getD ""
        let body := Json.obj [("data", Json.obj
          [("type", Json.str "customerReviewResponses"),
           ("attributes", Json.obj [("responseBody", Json.str responseBody)]),
           ("relationships", Json.obj
             [("review", Json.obj
               [("data", Json.obj
                 [("id", Json.str reviewId),
                  ("type", Json.str "customerReviews")])])])])]
        performJson .post "/customerReviewResponses" [] (some body) token net
  | "delete_customer_review_response" =>
    match args with
    | none => ([], .error .jsTypeError)
    | some a =>
      if strFalsy (getStr a "responseId") then
        ([], .error (.mcp .invalidParams "responseId is required"))
      else
        let responseId := (getStr a "responseId").getD ""
        let req : HttpRequest :=
          { method := .delete, path := "/customerReviewResponses/" ++ responseId
            params := [], auth := "Bearer " ++ token, body := none }
        match net with
        | .success _ =>
          ([req], .ok ("Customer review response " ++ responseId ++ " deleted successfully."))
        | .failure d msg =>
          ([req], .error (.mcp .internalError
            ("App Store Connect API error: " ++ extractDetail d msg)))
  | "get_customer_review_response" =>
    match args with
    | none => ([], .error .jsTypeError)
    | some a =>
      if strFalsy (getStr a "reviewId") then
        ([], .error (.mcp .invalidParams "reviewId is required"))
      else
        let reviewId := (getStr a "reviewId").getD ""
        performJson .get ("/customerReviews/" ++ reviewId ++ "/response") []
          none token net
  | _ => ([], .error (.mcp .methodNotFound ("Unknown tool: " ++ name)))

/-- The full CallTool handler: it awaits `generateToken` first, before the
switch ever inspects the tool name or its arguments, then runs the switch.
`sign` is the opaque JWT encoding of `jwt.sign`. The trace records the one
token issuance the handler always performs. -/
def handleCall (config : AppStoreConnectConfig) (readFile : String → String)
    (now : Nat) (sign : JwtToken → String) (name : String)
    (args : Option (List (String × JsArg))) (net : AxiosOutcome) : CallTrace :=
  let tok := generateToken config readFile now
  let pr := dispatchTool name args (sign tok) net
  { issuedTokens := [tok], requests := pr.1, result := pr.2 }

/-- One entry of the static tool registry returned by the ListTools
handler: tool name, description, the JSON-schema property names of its
input schema, and its required-property list. -/
structure ToolSpec where
  name : String
  description : String
  propertyNames : List String
  required : List String
deriving DecidableEq, Repr

/-- The static tool registry of the ListTools handler of src/index.ts (the
`tools` array), transcribed entry by entry in source order. -/
def toolRegistry : List ToolSpec :=
  [{ name := "list_apps"
     description := "Get a list of all apps in App Store Connect"
     propertyNames := ["limit"], required := [] },
   { name := "get_app_info"
     description := "Get detailed information about a specific app"
     propertyNames := ["appId", "include"], required := ["appId"] },
   { name := "list_users"
     description := "Get a list of all users registered on your App Store Connect team"
     propertyNames := ["limit", "sort", "filter", "include"], required := [] },
   { name := "list_customer_reviews"
     description := "List all customer reviews for an app."
     propertyNames := ["appId", "filterTerritory", "filterRating",
       "existsPublishedResponse", "sort", "fieldsCustomerReviews",
       "fieldsCustomerReviewResponses", "limit", "include"]
     required := ["appId"] },
   { name := "list_customer_reviews_for_version"
     description := "List all customer reviews for a specific App Store Version."
     propertyNames := ["versionId", "filterTerritory", "filterRating",
       "existsPublishedResponse", "sort", "fieldsCustomerReviews",
       "fieldsCustomerReviewResponses", "limit", "include"]
     required := ["versionId"] },
   { name := "create_customer_review_response"
     description := "Create a response or replace an existing response you wrote to a customer review."
     propertyNames := ["reviewId", "responseBody"]
     required := ["reviewId", "responseBody"] },
   { name := "delete_customer_review_response"
     description := "Delete a response to a customer review."
     propertyNames := ["responseId"], required := ["responseId"] },
   { name := "get_customer_review_response"
     description := "Get the response to a specific customer review."
     propertyNames := ["reviewId"], required := ["reviewId"] }]

/-- The value of query parameter `k` of the single attempted request of a
trace, when exactly one request was attempted and it carries `k` once or
more (axios params are an object, so the builders never repeat a key; the
first occurrence is the one sent). -/
def sentParam (t : CallTrace) (k : String) : Option QVal :=
  match t.requests with
  | [r] => (r.params.find? (fun p => p.1 == k)).map (fun p => p.2)
  | _ => none

/-- All values carried under query-parameter key `k` by the single
attempted request of a trace: the claim that a list argument becomes one
comma-joined parameter (never repeated keys) is that this is a singleton. -/
def paramValues (t : CallTrace) (k : String) : List QVal :=
  match t.requests with
  | [r] => (r.params.filter (fun p => p.1 == k)).map (fun p => p.2)
  | _ => []

/-- Whether a trace failed with an `McpError` of code InvalidParams. -/
def failsWithInvalidParams (t : CallTrace) : Bool :=
  match t.result with
  | .error (.mcp .invalidParams _) => true
  | _ => false

/-- A sample configuration, file system, and signer for concrete runs. -/
def cfg0 : AppStoreConnectConfig :=
  { keyId := "KEY1", issuerId := "ISS1", privateKeyPath := "/keys/AuthKey.p8" }

def read0 : String → String := fun _ => "PRIVATE-KEY-PEM"

def sign0 : JwtToken → String := fun _ => "jwt0"

/-- The upstream 404 error body of the end-to-end scenario:
`{"errors":[{"detail":"Review not found"}]}` parsed. -/
def notFoundBody : Json :=
  Json.obj [("errors", Json.arr [Json.obj [("detail", Json.str "Review not found")]])]

/-! ## Helper lemmas -/

theorem getStr_eq_none (a : List (String × JsArg)) (k : String)
    (h : jsLookup a k = none) : getStr a k = none := by
  simp [getStr, h]

theorem strFalsy_of_eq_some (o : Option String) (s : String) (h : o = some s)
    (hne : s ≠ "") : strFalsy o = false := by
  rw [h]; simp [strFalsy, hne]

theorem filter_listParamIf_ne (k q : String) (o : Option (List String))
    (h : (k == q) = false) :
    (listParamIf k o).filter (fun p => p.1 == q) = [] := by
  cases o with
  | none => rfl
  | some l => by_cases hl : l.isEmpty <;> simp [listParamIf, hl, h]

theorem filter_listParamIf_self (k : String) (l : List String) (hne : l ≠ []) :
    (listParamIf k (some l)).filter (fun p => p.1 == k) =
      [(k, QVal.s (joinComma l))] := by
  simp [listParamIf, hne]

theorem filter_boolParamIf_ne (k q : String) (o : Option Bool)
    (h : (k == q) = false) :
    (boolParamIf k o).filter (fun p => p.1 == q) = [] := by
  cases o <;> simp [boolParamIf, h]

theorem filter_limitParamIf_ne (q : String) (o : Option Int)
    (h : ("limit" == q) = false) :
    (limitParamIf o).filter (fun p => p.1 == q) = [] := by
  cases o <;> simp [limitParamIf, h]

theorem filter_strParamIf_ne (k q : String) (o : Option String)
    (h : (k == q) = false) :
    (strParamIf k o).filter (fun p => p.1 == q) = [] := by
  cases o with
  | none => rfl
  | some s => by_cases hs : s == "" <;> simp [strParamIf, hs, h]

theorem filter_userFilterParams_ne (q : String) (o : Option (List (String × JsArg)))
    (h1 : ("filter[username]" == q) = false) (h2 : ("filter[roles]" == q) = false)
    (h3 : ("filter[visibleApps]" == q) = false) :
    (userFilterParams o).filter (fun p => p.1 == q) = [] := by
  cases o with
  | none => rfl
  | some f =>
    simp only [userFilterParams, List.filter_append,
      filter_strParamIf_ne _ _ _ h1, filter_listParamIf_ne _ _ _ h2,
      filter_listParamIf_ne _ _ _ h3, List.append_nil]

theorem reviewParams_territory (a : List (String × JsArg)) (l : List String)
    (h : getStrList a "filterTerritory" = some l) (hne : l ≠ []) :
    (reviewQueryParams a).filter (fun p => p.1 == "filter[territory]") =
      [("filter[territory]", QVal.s (joinComma l))] := by
  simp [reviewQueryParams, List.filter_append, h, filter_listParamIf_self _ _ hne,
    filter_listParamIf_ne, filter_boolParamIf_ne, filter_limitParamIf_ne]

theorem reviewParams_rating (a : List (String × JsArg)) (l : List String)
    (h : getStrList a "filterRating" = some l) (hne : l ≠ []) :
    (reviewQueryParams a).filter (fun p => p.1 == "filter[rating]") =
      [("filter[rating]", QVal.s (joinComma l))] := by
  simp [reviewQueryParams, List.filter_append, h, filter_listParamIf_self _ _ hne,
    filter_listParamIf_ne, filter_boolParamIf_ne, filter_limitParamIf_ne]

theorem reviewParams_sort (a : List (String × JsArg)) (l : List String)
    (h : getStrList a "sort" = some l) (hne : l ≠ []) :
    (reviewQueryParams a).filter (fun p => p.1 == "sort") =
      [("sort", QVal.s (joinComma l))] := by
  simp [reviewQueryParams, List.filter_append, h, filter_listParamIf_self _ _ hne,
    filter_listParamIf_ne, filter_boolParamIf_ne, filter_limitParamIf_ne]

theorem reviewParams_fieldsReviews (a : List (String × JsArg)) (l : List String)
    (h : getStrList a "fieldsCustomerReviews" = some l) (hne : l ≠ []) :
    (reviewQueryParams a).filter (fun p => p.1 == "fields[customerReviews]") =
      [("fields[customerReviews]", QVal.s (joinComma l))] := by
  simp [reviewQueryParams, List.filter_append, h, filter_listParamIf_self _ _ hne,
    filter_listParamIf_ne, filter_boolParamIf_ne, filter_limitParamIf_ne]

theorem reviewParams_fieldsResponses (a : List (String × JsArg)) (l : List String)
    (h : getStrList a "fieldsCustomerReviewResponses" = some l) (hne : l ≠ []) :
    (reviewQueryParams a).filter (fun p => p.1 == "fields[customerReviewResponses]") =
      [("fields[customerReviewResponses]", QVal.s (joinComma l))] := by
  simp [reviewQueryParams, List.filter_append, h, filter_listParamIf_self _ _ hne,
    filter_listParamIf_ne, filter_boolParamIf_ne, filter_limitParamIf_ne]

theorem reviewParams_include (a : List (String × JsArg)) (l : List String)
    (h : getStrList a "include" = some l) (hne : l ≠ []) :
    (reviewQueryParams a).filter (fun p => p.1 == "include") =
      [("include", QVal.s (joinComma l))] := by
  simp [reviewQueryParams, List.filter_append, h, filter_listParamIf_self _ _ hne,
    filter_listParamIf_ne, filter_boolParamIf_ne, filter_limitParamIf_ne]

theorem usersParams_roles (a f : List (String × JsArg)) (l : List String)
    (h1 : getObj a "filter" = some f) (h : getStrList f "roles" = some l)
    (hne : l ≠ []) :
    (listUsersParams a).filter (fun p => p.1 == "filter[roles]") =
      [("filter[roles]", QVal.s (joinComma l))] := by
  simp [listUsersParams, List.filter_append, h1, userFilterParams, h,
    filter_listParamIf_self _ _ hne, filter_listParamIf_ne, filter_strParamIf_ne]

theorem usersParams_visibleApps (a f : List (String × JsArg)) (l : List String)
    (h1 : getObj a "filter" = some f) (h : getStrList f "visibleApps" = some l)
    (hne : l ≠ []) :
    (listUsersParams a).filter (fun p => p.1 == "filter[visibleApps]") =
      [("filter[visibleApps]", QVal.s (joinComma l))] := by
  simp [listUsersParams, List.filter_append, h1, userFilterParams, h,
    filter_listParamIf_self _ _ hne, filter_listParamIf_ne, filter_strParamIf_ne]

theorem usersParams_include (a : List (String × JsArg)) (l : List String)
    (h : getStrList a "include" = some l) (hne : l ≠ []) :
    (listUsersParams a).filter (fun p => p.1 == "include") =
      [("include", QVal.s (joinComma l))] := by
  simp [listUsersParams, List.filter_append, h, filter_listParamIf_self _ _ hne,
    filter_listParamIf_ne, filter_strParamIf_ne, filter_userFilterParams_ne]

theorem paramValues_reviews (config : AppStoreConnectConfig)
    (readFile : String → String) (now : Nat) (sign : JwtToken → String)
    (net : AxiosOutcome) (a : List (String × JsArg)) (q appId : String)
    (h1 : getStr a "appId" = some appId) (h2 : appId ≠ "") :
    paramValues (handleCall config readFile now sign "list_customer_reviews"
        (some a) net) q =
      ((reviewQueryParams a).filter (fun p => p.1 == q)).map (fun p => p.2) := by
  have hv := strFalsy_of_eq_some _ _ h1 h2
  cases net <;> simp [handleCall, paramValues, dispatchTool, hv, performJson]

theorem paramValues_reviews_version (config : AppStoreConnectConfig)
    (readFile : String → String) (now : Nat) (sign : JwtToken → String)
    (net : AxiosOutcome) (a : List (String × JsArg)) (q versionId : String)
    (h1 : getStr a "versionId" = some versionId) (h2 : versionId ≠ "") :
    paramValues (handleCall config readFile now sign
        "list_customer_reviews_for_version" (some a) net) q =
      ((reviewQueryParams a).filter (fun p => p.1 == q)).map (fun p => p.2) := by
  have hv := strFalsy_of_eq_some _ _ h1 h2
  cases net <;> simp [handleCall, paramValues, dispatchTool, hv, performJson]

theorem paramValues_users (config : AppStoreConnectConfig)
    (readFile : String → String) (now : Nat) (sign : JwtToken → String)
    (net : AxiosOutcome) (a : List (String × JsArg)) (q : String) :
    paramValues (handleCall config readFile now sign "list_users" (some a) net) q =
      ((listUsersParams a).filter (fun p => p.1 == q)).map (fun p => p.2) := by
  cases net <;> simp [handleCall, paramValues, dispatchTool, performJson]

theorem dispatchTool_failure_wraps (name : String)
    (args : Option (List (String × JsArg))) (token : String) (d : Option Json)
    (m : String) :
    (dispatchTool name args token (.failure d m)).1 = [] ∨
    (dispatchTool name args token (.failure d m)).2 =
      .error (.mcp .internalError
        ("App Store Connect API error: " ++ extractDetail d m)) := by
  unfold dispatchTool
  repeat' split
  all_goals simp_all [performJson]

theorem dispatchTool_success_pretty (name : String)
    (args : Option (List (String × JsArg))) (token : String) (v : Json)
    (hne : name ≠ "delete_customer_review_response") :
    (dispatchTool name args token (.success v)).1 = [] ∨
    (dispatchTool name args token (.success v)).2 = .ok (jsonStringify2 v) := by
  unfold dispatchTool
  repeat' split
  all_goals simp_all [performJson]

/-! ## Claim theorems -/

/-- C2: every token produced by `generateToken` is signed with ES256, has
audience `appstoreconnect-v1`, carries the configured key id and issuer id
as its keyid and issuer claims, expires exactly 20 minutes (and hence at
most 20 minutes) after issuance, and is signed with the key material read
from the configured private-key path on this very call (the read is a
parameter of the call, so no material from another call can be used). -/
theorem generateToken_contract (config : AppStoreConnectConfig)
    (readFile : String → String) (now : Nat) :
    (generateToken config readFile now).algorithm = "ES256" ∧
    (generateToken config readFile now).audience = "appstoreconnect-v1" ∧
    (generateToken config readFile now).keyid = config.keyId ∧
    (generateToken config readFile now).issuer = config.issuerId ∧
    (generateToken config readFile now).issuedAt = now ∧
    (generateToken config readFile now).expiresAt = now + 20 * 60 ∧
    (generateToken config readFile now).expiresAt ≤
      (generateToken config readFile now).issuedAt + 20 * 60 ∧
    (generateToken config readFile now).signingKey =
      readFile config.privateKeyPath :=
  ⟨rfl, rfl, rfl, rfl, rfl, rfl, le_refl _, rfl⟩

/-- C3 (amended): the handler awaits `generateToken` before the switch ever
inspects the tool name or validates any argument, so exactly one fresh
token is issued (and the private-key file read) for every invocation —
including those whose required-argument validation fails and those whose
tool name is unknown. The claimed order (validate, then issue) does not
hold; this theorem states the actual unconditional issuance. -/
theorem handleCall_issues_token_unconditionally (config : AppStoreConnectConfig)
    (readFile : String → String) (now : Nat) (sign : JwtToken → String)
    (name : String) (args : Option (List (String × JsArg))) (net : AxiosOutcome) :
    (handleCall config readFile now sign name args net).issuedTokens =
      [generateToken config readFile now] :=
  rfl

/-- C3 (counterexample): a get_app_info call with an empty arguments object
fails validation with InvalidParams and sends no request, yet one token was
issued (so the private-key file was read); likewise for an unknown tool
name. This refutes the claim that a token is never issued for such calls. -/
theorem token_issued_for_invalid_invocation :
    (handleCall cfg0 read0 0 sign0 "get_app_info" (some [])
      (.success Json.null)).issuedTokens = [generateToken cfg0 read0 0] ∧
    failsWithInvalidParams (handleCall cfg0 read0 0 sign0 "get_app_info"
      (some []) (.success Json.null)) = true ∧
    (handleCall cfg0 read0 0 sign0 "get_app_info" (some [])
      (.success Json.null)).requests = [] ∧
    (handleCall cfg0 read0 0 sign0 "no_such_tool" (some [])
      (.success Json.null)).issuedTokens = [generateToken cfg0 read0 0] ∧
    (handleCall cfg0 read0 0 sign0 "no_such_tool" (some [])
      (.success Json.null)).result =
      .error (.mcp .methodNotFound "Unknown tool: no_such_tool") :=
  ⟨rfl, rfl, rfl, rfl, rfl⟩

/-- C4 (amended): the actual limit behavior per tool. list_users,
list_customer_reviews and list_customer_reviews_for_version clamp a
supplied limit with min(limit, 200); list_apps and list_beta_groups send
any nonzero supplied limit unclamped (`limit || 100`). An absent limit
defaults to 100 for list_apps, list_beta_groups and list_users, while
list_customer_reviews and list_customer_reviews_for_version omit the limit
parameter entirely. A zero limit falls back to 100 only where `||` is used;
list_users sends 0. -/
theorem limit_query_parameter_behavior (config : AppStoreConnectConfig)
    (readFile : String → String) (now : Nat) (sign : JwtToken → String)
    (net : AxiosOutcome) (n : Int) :
    (sentParam (handleCall config readFile now sign "list_apps"
        (some [("limit", JsArg.num n)]) net) "limit"
      = some (QVal.n (if n = 0 then 100 else n))) ∧
    (sentParam (handleCall config readFile now sign "list_apps" (some []) net)
        "limit" = some (QVal.n 100)) ∧
    (sentParam (handleCall config readFile now sign "list_apps" none net)
        "limit" = some (QVal.n 100)) ∧
    (sentParam (handleCall config readFile now sign "list_beta_groups"
        (some [("limit", JsArg.num n)]) net) "limit"
      = some (QVal.n (if n = 0 then 100 else n))) ∧
    (sentParam (handleCall config readFile now sign "list_beta_groups" none net)
        "limit" = some (QVal.n 100)) ∧
    (sentParam (handleCall config readFile now sign "list_users"
        (some [("limit", JsArg.num n)]) net) "limit"
      = some (QVal.n (min n 200))) ∧
    (sentParam (handleCall config readFile now sign "list_users" (some []) net)
        "limit" = some (QVal.n 100)) ∧
    (sentParam (handleCall config readFile now sign "list_customer_reviews"
        (some [("appId", JsArg.str "A1"), ("limit", JsArg.num n)]) net) "limit"
      = some (QVal.n (min n 200))) ∧
    (sentParam (handleCall config readFile now sign "list_customer_reviews"
        (some [("appId", JsArg.str "A1")]) net) "limit" = none) ∧
    (sentParam (handleCall config readFile now sign
        "list_customer_reviews_for_version"
        (some [("versionId", JsArg.str "V1"), ("limit", JsArg.num n)]) net)
        "limit" = some (QVal.n (min n 200))) ∧
    (sentParam (handleCall config readFile now sign
        "list_customer_reviews_for_version"
        (some [("versionId", JsArg.str "V1")]) net) "limit" = none) := by
  cases net <;>
    exact ⟨rfl, rfl, rfl, rfl, rfl, rfl, rfl, rfl, rfl, rfl, rfl⟩

/-- C4 (counterexample): list_apps with limit 500 sends limit=500, not the
claimed clamp to 200; list_users with limit 0 (below 1) sends limit=0, not
the claimed default 100. -/
theorem limit_clamp_counterexample :
    sentParam (handleCall cfg0 read0 0 sign0 "list_apps"
      (some [("limit", JsArg.num 500)]) (.success Json.null)) "limit"
      = some (QVal.n 500) ∧
    QVal.n 500 ≠ QVal.n 200 ∧
    sentParam (handleCall cfg0 read0 0 sign0 "list_users"
      (some [("limit", JsArg.num 0)]) (.success Json.null)) "limit"
      = some (QVal.n 0) ∧
    QVal.n 0 ≠ QVal.n 100 :=
  ⟨rfl, by decide, rfl, by decide⟩

/-- C6: the static tool registry returned by the ListTools handler has
exactly eight entries and does not contain list_beta_groups, although the
dispatch switch does implement list_beta_groups (a call to it performs one
HTTP request, with the forced include=app,betaTesters parameter). The
claim — nine registry entries including list_beta_groups, as the spec
table and the repository documentation state — is violated by the code. -/
theorem toolRegistry_lacks_list_beta_groups :
    toolRegistry.map ToolSpec.name =
      ["list_apps", "get_app_info", "list_users", "list_customer_reviews",
       "list_customer_reviews_for_version", "create_customer_review_response",
       "delete_customer_review_response", "get_customer_review_response"] ∧
    ((toolRegistry.map ToolSpec.name).contains "list_beta_groups") = false ∧
    (handleCall cfg0 read0 0 sign0 "list_beta_groups" none
      (.success Json.null)).requests.length = 1 ∧
    sentParam (handleCall cfg0 read0 0 sign0 "list_beta_groups" none
      (.success Json.null)) "include" = some (QVal.s "app,betaTesters") :=
  ⟨rfl, by decide, rfl, rfl⟩

/-- C7: whenever dispatch reaches the transport and the axios call fails,
the resulting error is the catch-block wrap (the McpError the spec calls
UpstreamError): its message carries the first structured error detail of
the upstream response body when one is present, and the raw transport
error message otherwise (`errors?.[0]?.detail ?? error.message`), prefixed
by the fixed `App Store Connect API error: ` text — never a generic
HTTP-status string. -/
theorem upstream_error_detail_extracted (config : AppStoreConnectConfig)
    (readFile : String → String) (now : Nat) (sign : JwtToken → String)
    (name : String) (args : Option (List (String × JsArg))) (d : Option Json)
    (m : String)
    (h : (handleCall config readFile now sign name args (.failure d m)).requests ≠ []) :
    (handleCall config readFile now sign name args (.failure d m)).result =
      .error (.mcp .internalError
        ("App Store Connect API error: " ++ extractDetail d m)) := by
  rcases dispatchTool_failure_wraps name args (sign (generateToken config readFile now)) d m
    with h1 | h2
  · exact absurd h1 h
  · exact h2

/-- C7 (witness): the end-to-end scenario — an upstream 404 whose body is
the parsed form of `\x7b"errors":[\x7b"detail":"Review not found"\x7d]\x7d`
makes dispatch fail with the error message carrying `Review not found`,
not the generic `Request failed with status code 404` transport string. -/
theorem upstream_error_detail_extracted_witness :
    (handleCall cfg0 read0 0 sign0 "get_customer_review_response"
      (some [("reviewId", JsArg.str "r1")])
      (.failure (some notFoundBody) "Request failed with status code 404")).result
      = .error (.mcp .internalError "App Store Connect API error: Review not found") :=
  (upstream_error_detail_extracted cfg0 read0 0 sign0 "get_customer_review_response"
    (some [("reviewId", JsArg.str "r1")]) (some notFoundBody)
    "Request failed with status code 404" (List.cons_ne_nil _ _)).trans rfl

/-- C8 (amended): for every tool except delete_customer_review_response,
when dispatch reaches the transport and the call succeeds, the tool result
text is `JSON.stringify(response.data, null, 2)`: the parsed upstream JSON
re-serialized with two-space indentation — the same JSON document, but not
the exact bytes of the upstream serialization. -/
theorem success_body_pretty_printed (config : AppStoreConnectConfig)
    (readFile : String → String) (now : Nat) (sign : JwtToken → String)
    (name : String) (args : Option (List (String × JsArg))) (v : Json)
    (hname : name ≠ "delete_customer_review_response")
    (hreq : (handleCall config readFile now sign name args (.success v)).requests ≠ []) :
    (handleCall config readFile now sign name args (.success v)).result =
      .ok (jsonStringify2 v) := by
  rcases dispatchTool_success_pretty name args
      (sign (generateToken config readFile now)) v hname with h1 | h2
  · exact absurd h1 hreq
  · exact h2

/-- C8 (witness): get_app_info on a successful response relays the
two-space pretty-printed serialization of the parsed body. -/
theorem success_body_pretty_printed_witness :
    (handleCall cfg0 read0 0 sign0 "get_app_info"
      (some [("appId", JsArg.str "123")])
      (.success (Json.obj [("data", Json.obj [("id", Json.str "123")])]))).result
      = .ok "\x7b\n  \"data\": \x7b\n    \"id\": \"123\"\n  \x7d\n\x7d" :=
  (success_body_pretty_printed cfg0 read0 0 sign0 "get_app_info"
    (some [("appId", JsArg.str "123")])
    (Json.obj [("data", Json.obj [("id", Json.str "123")])])
    (by decide) (List.cons_ne_nil _ _)).trans rfl

/-- C8 (counterexample): an upstream that sends the compact body
`\x7b"a":1\x7d` (the canonical `JSON.stringify` serialization of the parsed
value) is relayed as the reformatted pretty-printed text, which differs
byte-for-byte from the upstream body — so the relay is not verbatim. -/
theorem relay_not_verbatim :
    stringifyCompact (Json.obj [("a", Json.num 1)]) = "\x7b\"a\":1\x7d" ∧
    (handleCall cfg0 read0 0 sign0 "list_apps" none
      (.success (Json.obj [("a", Json.num 1)]))).result
      = .ok "\x7b\n  \"a\": 1\n\x7d" ∧
    ("\x7b\n  \"a\": 1\n\x7d" == "\x7b\"a\":1\x7d") = false :=
  ⟨rfl, rfl, rfl⟩

/-- C9: every successful delete_customer_review_response call returns the
fixed confirmation text containing the supplied responseId; the result
does not depend on the upstream response body `v` (the quantification over
`v` states exactly that the empty upstream body is not relayed). -/
theorem delete_confirmation_text (config : AppStoreConnectConfig)
    (readFile : String → String) (now : Nat) (sign : JwtToken → String)
    (a : List (String × JsArg)) (idv : String) (v : Json)
    (h : getStr a "responseId" = some idv) (hne : idv ≠ "") :
    (handleCall config readFile now sign "delete_customer_review_response"
      (some a) (.success v)).result =
      .ok ("Customer review response " ++ idv ++ " deleted successfully.") := by
  have hv : strFalsy (some idv) = false := by simp [strFalsy, hne]
  simp [handleCall, dispatchTool, h, hv]

/-- C9 (witness): deleting response res9 on a successful call yields the
confirmation text with res9 inside, whatever the upstream body was. -/
theorem delete_confirmation_text_witness :
    (handleCall cfg0 read0 0 sign0 "delete_customer_review_response"
      (some [("responseId", JsArg.str "res9")]) (.success Json.null)).result =
      .ok "Customer review response res9 deleted successfully." :=
  (delete_confirmation_text cfg0 read0 0 sign0
    [("responseId", JsArg.str "res9")] "res9" Json.null rfl (by decide)).trans rfl

/-- C1 (amended): when an arguments object is present but lacks a declared
required argument (appId for get_app_info and list_customer_reviews,
versionId for list_customer_reviews_for_version, reviewId and responseBody
for create_customer_review_response, responseId for
delete_customer_review_response, reviewId for get_customer_review_response),
dispatch fails with InvalidParams and no HTTP request is sent. When the
whole arguments object is absent — which also omits the required
argument — these handlers destructure undefined and fail with a TypeError
instead of InvalidParams; still no HTTP request is sent. -/
theorem required_arg_omitted_invalid_params (config : AppStoreConnectConfig)
    (readFile : String → String) (now : Nat) (sign : JwtToken → String)
    (a : List (String × JsArg)) (net : AxiosOutcome) :
    (jsLookup a "appId" = none →
      failsWithInvalidParams (handleCall config readFile now sign "get_app_info"
        (some a) net) = true ∧
      (handleCall config readFile now sign "get_app_info" (some a) net).requests = []) ∧
    (jsLookup a "appId" = none →
      failsWithInvalidParams (handleCall config readFile now sign
        "list_customer_reviews" (some a) net) = true ∧
      (handleCall config readFile now sign "list_customer_reviews"
        (some a) net).requests = []) ∧
    (jsLookup a "versionId" = none →
      failsWithInvalidParams (handleCall config readFile now sign
        "list_customer_reviews_for_version" (some a) net) = true ∧
      (handleCall config readFile now sign "list_customer_reviews_for_version"
        (some a) net).requests = []) ∧
    (jsLookup a "reviewId" = none →
      failsWithInvalidParams (handleCall config readFile now sign
        "create_customer_review_response" (some a) net) = true ∧
      (handleCall config readFile now sign "create_customer_review_response"
        (some a) net).requests = []) ∧
    (jsLookup a "responseBody" = none →
      failsWithInvalidParams (handleCall config readFile now sign
        "create_customer_review_response" (some a) net) = true ∧
      (handleCall config readFile now sign "create_customer_review_response"
        (some a) net).requests = []) ∧
    (jsLookup a "responseId" = none →
      failsWithInvalidParams (handleCall config readFile now sign
        "delete_customer_review_response" (some a) net) = true ∧
      (handleCall config readFile now sign "delete_customer_review_response"
        (some a) net).requests = []) ∧
    (jsLookup a "reviewId" = none →
      failsWithInvalidParams (handleCall config readFile now sign
        "get_customer_review_response" (some a) net) = true ∧
      (handleCall config readFile now sign "get_customer_review_response"
        (some a) net).requests = []) ∧
    ((handleCall config readFile now sign "get_app_info" none net).result =
        .error .jsTypeError ∧
      (handleCall config readFile now sign "get_app_info" none net).requests = [] ∧
      (handleCall config readFile now sign "list_customer_reviews" none net).result =
        .error .jsTypeError ∧
      (handleCall config readFile now sign "list_customer_reviews" none net).requests = [] ∧
      (handleCall config readFile now sign "list_customer_reviews_for_version"
        none net).result = .error .jsTypeError ∧
      (handleCall config readFile now sign "list_customer_reviews_for_version"
        none net).requests = [] ∧
      (handleCall config readFile now sign "create_customer_review_response"
        none net).result = .error .jsTypeError ∧
      (handleCall config readFile now sign "create_customer_review_response"
        none net).requests = [] ∧
      (handleCall config readFile now sign "delete_customer_review_response"
        none net).result = .error .jsTypeError ∧
      (handleCall config readFile now sign "delete_customer_review_response"
        none net).requests = [] ∧
      (handleCall config readFile now sign "get_customer_review_response"
        none net).result = .error .jsTypeError ∧
      (handleCall config readFile now sign "get_customer_review_response"
        none net).requests = []) := by
  refine ⟨?_, ?_, ?_, ?_, ?_, ?_, ?_,
    rfl, rfl, rfl, rfl, rfl, rfl, rfl, rfl, rfl, rfl, rfl, rfl⟩ <;>
    intro h <;>
    simp [handleCall, dispatchTool, failsWithInvalidParams, strFalsy,
      getStr_eq_none _ _ h]

/-- C1 (witness): get_app_info with an empty arguments object (appId
omitted) fails InvalidParams with no request attempted. -/
theorem required_arg_omitted_invalid_params_witness :
    failsWithInvalidParams (handleCall cfg0 read0 0 sign0 "get_app_info"
      (some []) (.success Json.null)) = true ∧
    (handleCall cfg0 read0 0 sign0 "get_app_info" (some [])
      (.success Json.null)).requests = [] :=
  (required_arg_omitted_invalid_params cfg0 read0 0 sign0 []
    (.success Json.null)).1 rfl

/-- C1 (counterexample): a get_app_info call whose arguments object is
entirely absent omits the required appId, yet dispatch fails with a
TypeError, not with InvalidParams (no HTTP request is sent either way). -/
theorem omitted_args_object_typeError :
    (handleCall cfg0 read0 0 sign0 "get_app_info" none
      (.success Json.null)).result = .error .jsTypeError ∧
    failsWithInvalidParams (handleCall cfg0 read0 0 sign0 "get_app_info" none
      (.success Json.null)) = false ∧
    (handleCall cfg0 read0 0 sign0 "get_app_info" none
      (.success Json.null)).requests = [] :=
  ⟨rfl, rfl, rfl⟩

/-- C10: supplying the empty string for a required string argument is
treated exactly like omitting it: validation is by JavaScript falsiness
(`if (!appId)`), so an empty-string appId, versionId, reviewId,
responseBody or responseId present in the arguments object still fails
with InvalidParams and sends no HTTP request. -/
theorem empty_string_required_arg_rejected (config : AppStoreConnectConfig)
    (readFile : String → String) (now : Nat) (sign : JwtToken → String)
    (a : List (String × JsArg)) (net : AxiosOutcome) :
    (jsLookup a "appId" = some (JsArg.str "") →
      failsWithInvalidParams (handleCall config readFile now sign "get_app_info"
        (some a) net) = true ∧
      (handleCall config readFile now sign "get_app_info" (some a) net).requests = []) ∧
    (jsLookup a "appId" = some (JsArg.str "") →
      failsWithInvalidParams (handleCall config readFile now sign
        "list_customer_reviews" (some a) net) = true ∧
      (handleCall config readFile now sign "list_customer_reviews"
        (some a) net).requests = []) ∧
    (jsLookup a "versionId" = some (JsArg.str "") →
      failsWithInvalidParams (handleCall config readFile now sign
        "list_customer_reviews_for_version" (some a) net) = true ∧
      (handleCall config readFile now sign "list_customer_reviews_for_version"
        (some a) net).requests = []) ∧
    (jsLookup a "reviewId" = some (JsArg.str "") →
      failsWithInvalidParams (handleCall config readFile now sign
        "create_customer_review_response" (some a) net) = true ∧
      (handleCall config readFile now sign "create_customer_review_response"
        (some a) net).requests = []) ∧
    (jsLookup a "responseBody" = some (JsArg.str "") →
      failsWithInvalidParams (handleCall config readFile now sign
        "create_customer_review_response" (some a) net) = true ∧
      (handleCall config readFile now sign "create_customer_review_response"
        (some a) net).requests = []) ∧
    (jsLookup a "responseId" = some (JsArg.str "") →
      failsWithInvalidParams (handleCall config readFile now sign
        "delete_customer_review_response" (some a) net) = true ∧
      (handleCall config readFile now sign "delete_customer_review_response"
        (some a) net).requests = []) ∧
    (jsLookup a "reviewId" = some (JsArg.str "") →
      failsWithInvalidParams (handleCall config readFile now sign
        "get_customer_review_response" (some a) net) = true ∧
      (handleCall config readFile now sign "get_customer_review_response"
        (some a) net).requests = []) := by
  have hs : ∀ k, jsLookup a k = some (JsArg.str "") → getStr a k = some "" := by
    intro k hk; simp [getStr, hk]
  refine ⟨?_, ?_, ?_, ?_, ?_, ?_, ?_⟩ <;>
    intro h <;>
    simp [handleCall, dispatchTool, failsWithInvalidParams, strFalsy, hs _ h]

/-- C10 (witness): get_app_info with appId present as the empty string
fails InvalidParams with no request attempted. -/
theorem empty_string_required_arg_rejected_witness :
    failsWithInvalidParams (handleCall cfg0 read0 0 sign0 "get_app_info"
      (some [("appId", JsArg.str "")]) (.success Json.null)) = true ∧
    (handleCall cfg0 read0 0 sign0 "get_app_info"
      (some [("appId", JsArg.str "")]) (.success Json.null)).requests = [] :=
  (empty_string_required_arg_rejected cfg0 read0 0 sign0
    [("appId", JsArg.str "")] (.success Json.null)).1 rfl

/-- C5: every list-valued optional argument supplied as a non-empty array
of string elements (include of get_app_info; filterTerritory, filterRating,
sort, fieldsCustomerReviews, fieldsCustomerReviewResponses and include of
list_customer_reviews and list_customer_reviews_for_version; filter roles,
filter visibleApps and include of list_users) is sent as a single query
parameter whose value is the elements joined by commas in input order —
never as repeated keys or array syntax (paramValues collects every
occurrence of the key, and it is the one-element list). -/
theorem list_arguments_comma_joined (config : AppStoreConnectConfig)
    (readFile : String → String) (now : Nat) (sign : JwtToken → String)
    (net : AxiosOutcome) (a f : List (String × JsArg)) (l : List String)
    (idv : String) :
    (getStr a "appId" = some idv → idv ≠ "" →
      getStrList a "include" = some l → l ≠ [] →
      paramValues (handleCall config readFile now sign "get_app_info"
        (some a) net) "include" = [QVal.s (joinComma l)]) ∧
    (getStr a "appId" = some idv → idv ≠ "" →
      getStrList a "filterTerritory" = some l → l ≠ [] →
      paramValues (handleCall config readFile now sign "list_customer_reviews"
        (some a) net) "filter[territory]" = [QVal.s (joinComma l)]) ∧
    (getStr a "appId" = some idv → idv ≠ "" →
      getStrList a "filterRating" = some l → l ≠ [] →
      paramValues (handleCall config readFile now sign "list_customer_reviews"
        (some a) net) "filter[rating]" = [QVal.s (joinComma l)]) ∧
    (getStr a "appId" = some idv → idv ≠ "" →
      getStrList a "sort" = some l → l ≠ [] →
      paramValues (handleCall config readFile now sign "list_customer_reviews"
        (some a) net) "sort" = [QVal.s (joinComma l)]) ∧
    (getStr a "appId" = some idv → idv ≠ "" →
      getStrList a "fieldsCustomerReviews" = some l → l ≠ [] →
      paramValues (handleCall config readFile now sign "list_customer_reviews"
        (some a) net) "fields[customerReviews]" = [QVal.s (joinComma l)]) ∧
    (getStr a "appId" = some idv → idv ≠ "" →
      getStrList a "fieldsCustomerReviewResponses" = some l → l ≠ [] →
      paramValues (handleCall config readFile now sign "list_customer_reviews"
        (some a) net) "fields[customerReviewResponses]" = [QVal.s (joinComma l)]) ∧
    (getStr a "appId" = some idv → idv ≠ "" →
      getStrList a "include" = some l → l ≠ [] →
      paramValues (handleCall config readFile now sign "list_customer_reviews"
        (some a) net) "include" = [QVal.s (joinComma l)]) ∧
    (getStr a "versionId" = some idv → idv ≠ "" →
      getStrList a "filterTerritory" = some l → l ≠ [] →
      paramValues (handleCall config readFile now sign
        "list_customer_reviews_for_version" (some a) net) "filter[territory]"
        = [QVal.s (joinComma l)]) ∧
    (getObj a "filter" = some f → getStrList f "roles" = some l → l ≠ [] →
      paramValues (handleCall config readFile now sign "list_users"
        (some a) net) "filter[roles]" = [QVal.s (joinComma l)]) ∧
    (getObj a "filter" = some f → getStrList f "visibleApps" = some l → l ≠ [] →
      paramValues (handleCall config readFile now sign "list_users"
        (some a) net) "filter[visibleApps]" = [QVal.s (joinComma l)]) ∧
    (getStrList a "include" = some l → l ≠ [] →
      paramValues (handleCall config readFile now sign "list_users"
        (some a) net) "include" = [QVal.s (joinComma l)]) := by
  refine ⟨?_, ?_, ?_, ?_, ?_, ?_, ?_, ?_, ?_, ?_, ?_⟩
  · intro h1 h2 h3 _
    have hv := strFalsy_of_eq_some _ _ h1 h2
    cases net <;>
      simp [handleCall, paramValues, dispatchTool, hv, performJson, h3]
  · intro h1 h2 h3 h4
    rw [paramValues_reviews config readFile now sign net a _ idv h1 h2,
      reviewParams_territory a l h3 h4]
    rfl
  · intro h1 h2 h3 h4
    rw [paramValues_reviews config readFile now sign net a _ idv h1 h2,
      reviewParams_rating a l h3 h4]
    rfl
  · intro h1 h2 h3 h4
    rw [paramValues_reviews config readFile now sign net a _ idv h1 h2,
      reviewParams_sort a l h3 h4]
    rfl
  · intro h1 h2 h3 h4
    rw [paramValues_reviews config readFile now sign net a _ idv h1 h2,
      reviewParams_fieldsReviews a l h3 h4]
    rfl
  · intro h1 h2 h3 h4
    rw [paramValues_reviews config readFile now sign net a _ idv h1 h2,
      reviewParams_fieldsResponses a l h3 h4]
    rfl
  · intro h1 h2 h3 h4
    rw [paramValues_reviews config readFile now sign net a _ idv h1 h2,
      reviewParams_include a l h3 h4]
    rfl
  · intro h1 h2 h3 h4
    rw [paramValues_reviews_version config readFile now sign net a _ idv h1 h2,
      reviewParams_territory a l h3 h4]
    rfl
  · intro h1 h3 h4
    rw [paramValues_users config readFile now sign net a _,
      usersParams_roles a f l h1 h3 h4]
    rfl
  · intro h1 h3 h4
    rw [paramValues_users config readFile now sign net a _,
      usersParams_visibleApps a f l h1 h3 h4]
    rfl
  · intro h3 h4
    rw [paramValues_users config readFile now sign net a _,
      usersParams_include a l h3 h4]
    rfl

/-- C5 (witness): list_customer_reviews for app A1 with filterTerritory
`["USA", "KOR"]` sends the single query parameter
filter[territory]=USA,KOR. -/
theorem list_arguments_comma_joined_witness :
    paramValues (handleCall cfg0 read0 0 sign0 "list_customer_reviews"
      (some [("appId", JsArg.str "A1"),
             ("filterTerritory", JsArg.strList ["USA", "KOR"])])
      (.success Json.null)) "filter[territory]" = [QVal.s "USA,KOR"] :=
  ((list_arguments_comma_joined cfg0 read0 0 sign0 (.success Json.null)
    [("appId", JsArg.str "A1"), ("filterTerritory", JsArg.strList ["USA", "KOR"])]
    [] ["USA", "KOR"] "A1").2.1 rfl (by decide) rfl (by decide)).trans rfl
